import Mathlib

/-!
Verification development for the Zava Capacity Planner backend.

This file gives a shallow embedding of the backend's core logic — the
workflow orchestrator (`backend/app/agents/workflow.py`), the telemetry
aggregator and schemas (`backend/app/models/schemas.py`), the WebSocket
connection hub (`backend/app/websocket/handler.py`), the HTTP/WebSocket
endpoints (`backend/app/main.py`) and the cost arithmetic
(`backend/app/config.py`, `backend/app/agents/*.py::_calculate_cost`) —
and proves properties of the embedded definitions.

Modelling conventions:
- Python unbounded `int` is `Int`; Python `float` money values are modelled
  by exact rationals `ℚ` (the decimal literals of the source are exact in ℚ;
  the properties proved do not depend on binary floating-point rounding).
- Python `dict` (insertion ordered, overwrite keeps the position) is an
  association list with `dictInsert`.
- Python `set` is a duplicate-free list; WebSocket connection objects are
  identified by natural numbers.
- `async` suspension points carry no semantic content here; the outcome of
  the approval wait (signal before the 300 s timeout, or expiry) is an
  explicit `ApprovalOutcome` value, and each of the four stage calls is a
  function returning `Except String StageResult` (`.error` models a raised
  exception with its message, as caught by `run`'s `except` block).
-/

namespace Zava

/-- Python `datetime.date`: a calendar date compared lexicographically. -/
structure PyDate where
  year : Nat
  month : Nat
  day : Nat
deriving DecidableEq

/-- Boolean `<=` on dates, as Python compares `date` values. -/
def PyDate.le (a b : PyDate) : Bool :=
  if a.year ≠ b.year then a.year < b.year
  else if a.month ≠ b.month then a.month < b.month
  else a.day ≤ b.day

/-- Zero-pad a numeral to two digits, as in Python `%02d`. -/
def pad2 (n : Nat) : String :=
  if n < 10 then "0" ++ toString n else toString n

/-- Zero-pad a numeral to four digits, as in Python `%04d`. -/
def pad4 (n : Nat) : String :=
  if n < 10 then "000" ++ toString n
  else if n < 100 then "00" ++ toString n
  else if n < 1000 then "0" ++ toString n
  else toString n

/-- Python `str(date)`: ISO `YYYY-MM-DD` rendering. -/
def PyDate.iso (d : PyDate) : String :=
  pad4 d.year ++ "-" ++ pad2 d.month ++ "-" ++ pad2 d.day

/-- Association-list update with Python `dict` semantics: overwriting an
existing key keeps its position, a new key is appended at the end. -/
def dictInsert {β : Type} (k : String) (v : β) :
    List (String × β) → List (String × β)
  | [] => [(k, v)]
  | (k0, v0) :: rest =>
      if k0 = k then (k0, v) :: rest else (k0, v0) :: dictInsert k v rest

/-- Association-list lookup with Python `dict.get` semantics. -/
def dictGet {β : Type} (k : String) : List (String × β) → Option β
  | [] => none
  | (k0, v) :: rest => if k0 = k then some v else dictGet k rest

/-- Schema `AgentMetrics` (`schemas.py`): metrics of one agent execution. -/
structure AgentMetrics where
  input_tokens : Int := 0
  output_tokens : Int := 0
  duration_ms : Int := 0
  cost_usd : ℚ := 0
  tool_calls : Int := 0
deriving DecidableEq

/-- Schema `TelemetryMetrics` (`schemas.py`): per-session running aggregate. -/
structure TelemetryMetrics where
  session_id : String
  total_input_tokens : Int := 0
  total_output_tokens : Int := 0
  total_tokens : Int := 0
  total_cost_usd : ℚ := 0
  total_duration_ms : Int := 0
  agents_completed : Int := 0
  agents_total : Int := 4
  agent_metrics : List (String × AgentMetrics) := []
deriving DecidableEq

/-- Fresh `TelemetryMetrics(session_id=...)` with all defaults. -/
def TelemetryMetrics.init (sid : String) : TelemetryMetrics :=
  { session_id := sid }

/-- Method `TelemetryMetrics.add_agent_metrics` (`schemas.py` lines 99-107):
stores the stage's metrics under its id (overwriting any previous entry)
and adds the metrics into every running total, recomputing `total_tokens`
and incrementing `agents_completed`. -/
def TelemetryMetrics.add_agent_metrics (t : TelemetryMetrics)
    (agent_id : String) (m : AgentMetrics) : TelemetryMetrics :=
  let ti := t.total_input_tokens + m.input_tokens
  let to0 := t.total_output_tokens + m.output_tokens
  { t with
    agent_metrics := dictInsert agent_id m t.agent_metrics
    total_input_tokens := ti
    total_output_tokens := to0
    total_tokens := ti + to0
    total_cost_usd := t.total_cost_usd + m.cost_usd
    total_duration_ms := t.total_duration_ms + m.duration_ms
    agents_completed := t.agents_completed + 1 }

/-! ### Cost arithmetic (`config.py`, `agents/*.py::_calculate_cost`) -/

/-- Setting `gpt5_mini_input_cost_per_million` (`config.py` line 72). -/
def gpt5_mini_input_cost_per_million : ℚ := 0.30

/-- Setting `gpt5_mini_output_cost_per_million` (`config.py` line 73). -/
def gpt5_mini_output_cost_per_million : ℚ := 1.25

/-- Floor of a rational, computed on its reduced fraction. -/
def ratFloor (x : ℚ) : ℤ := Int.fdiv x.num x.den

/-- Python banker's rounding `round(x)` of a rational: nearest integer,
ties to the even neighbour. Phrased on the reduced fraction: with
`f = ⌊x⌋` and remainder `r = num - f·den`, the fractional part `r/den` is
compared with `1/2` by comparing `2·r` with `den`. -/
def pyRound (x : ℚ) : ℤ :=
  let n := x.num
  let d := (x.den : ℤ)
  let f := Int.fdiv n d
  let r := n - f * d
  if 2 * r < d then f
  else if d < 2 * r then f + 1
  else if f % 2 = 0 then f else f + 1

/-- Python `round(x, 6)`: round to six decimal places. -/
def round6 (x : ℚ) : ℚ := (pyRound (x * 1000000) : ℚ) / 1000000

/-- Method `_calculate_cost(input_tokens, output_tokens)` shared by the four
production agents (`data_analyst.py` 378-382, `capacity_calc.py` 156-160,
`doc_researcher.py` 195-199, `planner.py` 180-184): per-million-token rates
applied to each direction, summed and rounded to 6 decimals. -/
def calculate_cost (input_tokens output_tokens : Int) : ℚ :=
  let input_cost := ((input_tokens : ℚ) / 1000000) * gpt5_mini_input_cost_per_million
  let output_cost := ((output_tokens : ℚ) / 1000000) * gpt5_mini_output_cost_per_million
  round6 (input_cost + output_cost)

/-- Modelled from the spec's words, for comparison with `calculate_cost`:
`cost_usd == round(input_tokens/1e6 * input_rate + output_tokens/1e6 *
output_rate, 6)` for given per-million-token rates. -/
def specCostPerStage (input_tokens output_tokens : Int)
    (input_rate output_rate : ℚ) : ℚ :=
  round6 ((input_tokens : ℚ) / 1000000 * input_rate
    + (output_tokens : ℚ) / 1000000 * output_rate)

/-! Demo-mode stage metrics hard-coded in `workflow.py` (`_run_data_analyst`
369-379, `_run_capacity_calculator` 393-404, `_run_doc_researcher` 415-428,
`_run_planner` 439-458). `duration_ms` is wall-clock there
(`int((time.time() - start) * 1000)`) and is a parameter here. -/

/-- Demo metrics recorded by `_run_data_analyst` (`workflow.py` 371-377). -/
def demoDataAnalystMetrics (dur : Int) : AgentMetrics :=
  { input_tokens := 245, output_tokens := 1850, duration_ms := dur
    cost_usd := 0.0205, tool_calls := 5 }

/-- Demo metrics recorded by `_run_capacity_calculator` (`workflow.py` 395-401). -/
def demoCapacityCalcMetrics (dur : Int) : AgentMetrics :=
  { input_tokens := 1900, output_tokens := 2200, duration_ms := dur
    cost_usd := 0.0245, tool_calls := 1 }

/-- Demo metrics recorded by `_run_doc_researcher` (`workflow.py` 419-425). -/
def demoDocResearcherMetrics (dur : Int) : AgentMetrics :=
  { input_tokens := 2300, output_tokens := 1800, duration_ms := dur
    cost_usd := 0.0210, tool_calls := 1 }

/-- Demo metrics recorded by `_run_planner` (`workflow.py` 443-449). -/
def demoPlannerMetrics (dur : Int) : AgentMetrics :=
  { input_tokens := 5500, output_tokens := 3200, duration_ms := dur
    cost_usd := 0.0390, tool_calls := 0 }

/-! ### Python string helpers used by `_extract_summary` (`workflow.py` 320-328) -/

/-- Index of the first occurrence of `needle` as a contiguous sublist of
`hay`, if any. -/
def findIdx? (needle : List Char) : List Char → Option Nat
  | [] => if needle.isPrefixOf ([] : List Char) then some 0 else none
  | c :: t =>
      if needle.isPrefixOf (c :: t) then some 0
      else (findIdx? needle t).map (· + 1)

/-- Python `hay.find(needle, start)`: smallest index `≥ start` where `needle`
occurs, `-1` if there is none or `start` exceeds the length. -/
def pyFind (hay needle : List Char) (start : Nat) : Int :=
  if hay.length < start then -1
  else
    match findIdx? needle (hay.drop start) with
    | some i => ((i + start : Nat) : Int)
    | none => -1

/-- Python whitespace characters removed by `str.strip()`. -/
def isPySpace (c : Char) : Bool :=
  c = ' ' || c = '\t' || c = '\n' || c = '\x0d' || c = '\x0b' || c = '\x0c'

/-- Python `str.strip()`: drop leading and trailing whitespace. -/
def pyStrip (l : List Char) : List Char :=
  ((l.dropWhile isPySpace).reverse.dropWhile isPySpace).reverse

/-- Method `_extract_summary(plan_text)` (`workflow.py` 320-328): slice from
"EXECUTIVE SUMMARY" to the next "##" when present, else the first 500
characters followed by an ellipsis. -/
def extract_summary (plan_text : String) : String :=
  let cs := plan_text.data
  let header := "EXECUTIVE SUMMARY".data
  let hIdx := pyFind cs header 0
  if 0 ≤ hIdx then
    let s := hIdx.toNat
    let e := pyFind cs "##".data (s + 20)
    if hIdx < e then
      String.mk (pyStrip ((cs.drop s).take (e.toNat - s)))
    else
      String.mk (cs.take 500) ++ "..."
  else
    String.mk (cs.take 500) ++ "..."

/-! ### Workflow orchestrator (`agents/workflow.py`) -/

/-- Enum `WorkflowState` (`workflow.py` 45-53). -/
inductive WorkflowState where
  | INITIALIZED
  | RUNNING
  | AWAITING_APPROVAL
  | APPROVED
  | REJECTED
  | COMPLETED
  | ERROR
deriving DecidableEq

/-- Enum `AgentStatus` (`schemas.py` 11-16). -/
inductive AgentStatus where
  | PENDING
  | RUNNING
  | COMPLETED
  | ERROR
deriving DecidableEq

/-- Schema `WorkflowRequest` (`schemas.py` 19-32): date range and hub. -/
structure WorkflowRequest where
  date_from : PyDate
  date_to : PyDate
  hub : String := "Seattle"
deriving DecidableEq

/-- Result dict returned by a stage call: the `output`/`metrics`/`tools_used`
keys common to all four `_run_*` helpers, plus the planner's
`approval_actions` entries (an `{action_id, action, description,
estimated_cost}` dict each, kept as a 3-string-and-cost tuple). -/
structure StageResult where
  output : String
  metrics : AgentMetrics
  tools_used : List String := []
  approval_actions : List (String × String × String × ℚ) := []
deriving DecidableEq

/-- Schema `AgentUpdate` (`schemas.py` 44-53) as built by `_create_update`
(`workflow.py` 299-318); `tools` is the `"tools"` entry of the `tool_use`
dict (its other keys carry no behaviour any property here depends on). -/
structure AgentUpdate where
  agent_id : String
  agent_name : String
  status : AgentStatus
  input_text : Option String := none
  output_text : Option String := none
  tools : Option (List String) := none
  metrics : Option AgentMetrics := none
deriving DecidableEq

/-- Schema `HumanApprovalRequest` (`schemas.py` 69-77) as constructed in
`run` (`workflow.py` 225-242). -/
structure HumanApprovalRequest where
  session_id : String
  plan_summary : String
  proposed_actions : List (String × String × String × ℚ)
  total_cost_estimate : ℚ
  aircraft_assignments : List (String × String × Int)
  crew_assignments : List (String × String × String × Option String)
deriving DecidableEq

/-- Terminal `workflow_complete` dict yielded by `run` (`workflow.py`
261-276). -/
structure CompleteEvent where
  status : String
  session_id : String
  message : String
  telemetry : TelemetryMetrics
deriving DecidableEq

/-- Error dict yielded by `run`: the timeout error (`workflow.py` 256, no
session id and no telemetry) or the exception error (`workflow.py` 282-287,
with both). -/
structure ErrorEvent where
  session_id : Option String
  message : String
  telemetry : Option TelemetryMetrics
deriving DecidableEq

/-- One item yielded by `CapacityPlanningWorkflow.run`. -/
inductive Event where
  | update (u : AgentUpdate)
  | approval (r : HumanApprovalRequest)
  | complete (e : CompleteEvent)
  | error (e : ErrorEvent)
deriving DecidableEq

/-- Class attribute `AGENTS` (`workflow.py` 74-99), id and display name. -/
def AGENTS : List (String × String) :=
  [("data_analyst", "Data Analyst"),
   ("capacity_calc", "Capacity Calculator"),
   ("doc_researcher", "Document Researcher"),
   ("planner", "Planner")]

/-- Name lookup of `_create_update` (`workflow.py` 309-312):
`agent_info.get("name", agent_id)`. -/
def agentName (agent_id : String) : String :=
  ((AGENTS.find? (fun a => a.1 = agent_id)).map (·.2)).getD agent_id

/-- Method `_create_update` (`workflow.py` 299-318). -/
def create_update (agent_id : String) (status : AgentStatus)
    (input_text output_text : Option String) (tools : Option (List String))
    (metrics : Option AgentMetrics) : AgentUpdate :=
  { agent_id := agent_id, agent_name := agentName agent_id, status := status
    input_text := input_text, output_text := output_text, tools := tools
    metrics := metrics }

/-- Constant `aircraft_assignments` list (`workflow.py` 230-235). -/
def aircraftAssignments : List (String × String × Int) :=
  [("SEA-LAX", "767-300F", 22340), ("SEA-JFK", "A330-200F", 19850),
   ("SEA-NRT", "777F", 18200), ("SEA-LHR", "747-400F", 30000)]

/-- Constant `crew_assignments` list (`workflow.py` 236-241). -/
def crewAssignments : List (String × String × String × Option String) :=
  [("ZV101", "Chen", "Liu", none), ("ZV201", "Park", "Foster", none),
   ("ZV401", "Wilson", "Martinez", none),
   ("ZV501", "Johnson", "Anderson", some "Wright")]

/-- Approval wait outcome of `asyncio.wait_for(self._approval_event.wait(),
timeout=300)` (`workflow.py` 252-257): either the event was set in time
(carrying `_approved` and `_approval_comments`) or the wait timed out. -/
inductive ApprovalOutcome where
  | timeout
  | decided (approved : Bool) (comments : String)
deriving DecidableEq

/-- Timeout bound of the approval wait, seconds (`workflow.py` 253). -/
def approvalTimeoutSeconds : Nat := 300

/-- Approval fields of the workflow object (`workflow.py` 121-123):
`_approval_event` (set flag), `_approved`, `_approval_comments`. -/
structure ApprovalSlot where
  eventSet : Bool := false
  approved : Bool := false
  comments : String := ""
deriving DecidableEq

/-- Method `approve(approved, comments)` (`workflow.py` 289-297): store the
decision and comments and set the event. -/
def approve (_s : ApprovalSlot) (approved : Bool) (comments : String) :
    ApprovalSlot :=
  { eventSet := true, approved := approved, comments := comments }

/-- Outcome seen by the waiter: a set event before the timeout yields the
stored decision, an unset one lets the 300 s wait expire. -/
def slotOutcome (s : ApprovalSlot) : ApprovalOutcome :=
  if s.eventSet then .decided s.approved s.comments else .timeout

/-- Result of consuming `run`'s generator to the end: the yielded events in
order, the successive assignments to `self.state` during `run` (the
constructor's `INITIALIZED` precedes them), and the final telemetry. -/
structure RunResult where
  events : List Event
  states : List WorkflowState
  telemetry : TelemetryMetrics
deriving DecidableEq

/-- Method `CapacityPlanningWorkflow.run(request)` (`workflow.py` 125-287),
fully consumed. `sid` is `self.session_id`; `s1`-`s4` are the four stage
calls `_run_data_analyst`, `_run_capacity_calculator`, `_run_doc_researcher`
and `_run_planner`, each returning `.error msg` when the call raises an
exception with message `msg` (caught by the surrounding `except` which
emits one error dict with the partial telemetry) and `.ok` with the result
dict otherwise; `appr` is the outcome of the approval wait. -/
def runWorkflow (sid : String) (request : WorkflowRequest)
    (s1 : WorkflowRequest → Except String StageResult)
    (s2 : String → Except String StageResult)
    (s3 : String → Except String StageResult)
    (s4 : String → String → String → Except String StageResult)
    (appr : ApprovalOutcome) : RunResult :=
  let t0 := TelemetryMetrics.init sid
  let e1r := Event.update (create_update "data_analyst" .RUNNING
    (some ("Analyzing shipments from " ++ request.hub ++ " hub ("
      ++ request.date_from.iso ++ " to " ++ request.date_to.iso ++ ")"))
    none none none)
  match s1 request with
  | .error msg =>
      { events := [e1r, .error ⟨some sid, msg, some t0⟩]
        states := [.RUNNING, .ERROR], telemetry := t0 }
  | .ok d =>
    let t1 := t0.add_agent_metrics "data_analyst" d.metrics
    let e1c := Event.update (create_update "data_analyst" .COMPLETED
      none (some d.output) (some d.tools_used) (some d.metrics))
    let e2r := Event.update (create_update "capacity_calc" .RUNNING
      (some "Calculating capacity requirements based on shipment data...")
      none none none)
    match s2 d.output with
    | .error msg =>
        { events := [e1r, e1c, e2r, .error ⟨some sid, msg, some t1⟩]
          states := [.RUNNING, .ERROR], telemetry := t1 }
    | .ok c =>
      let t2 := t1.add_agent_metrics "capacity_calc" c.metrics
      let e2c := Event.update (create_update "capacity_calc" .COMPLETED
        none (some c.output) (some c.tools_used) (some c.metrics))
      let e3r := Event.update (create_update "doc_researcher" .RUNNING
        (some "Searching policy documents and regulations...")
        none none none)
      match s3 c.output with
      | .error msg =>
          { events := [e1r, e1c, e2r, e2c, e3r,
              .error ⟨some sid, msg, some t2⟩]
            states := [.RUNNING, .ERROR], telemetry := t2 }
      | .ok r =>
        let t3 := t2.add_agent_metrics "doc_researcher" r.metrics
        let e3c := Event.update (create_update "doc_researcher" .COMPLETED
          none (some r.output) (some r.tools_used) (some r.metrics))
        let e4r := Event.update (create_update "planner" .RUNNING
          (some "Synthesizing capacity plan from all data...")
          none none none)
        match s4 d.output c.output r.output with
        | .error msg =>
            { events := [e1r, e1c, e2r, e2c, e3r, e3c, e4r,
                .error ⟨some sid, msg, some t3⟩]
              states := [.RUNNING, .ERROR], telemetry := t3 }
        | .ok p =>
          let t4 := t3.add_agent_metrics "planner" p.metrics
          let e4c := Event.update (create_update "planner" .COMPLETED
            none (some p.output) (some []) (some p.metrics))
          let apReq : HumanApprovalRequest :=
            { session_id := sid
              plan_summary := extract_summary p.output
              proposed_actions := p.approval_actions
              total_cost_estimate := t4.total_cost_usd + 71617
              aircraft_assignments := aircraftAssignments
              crew_assignments := crewAssignments }
          let evs0 := [e1r, e1c, e2r, e2c, e3r, e3c, e4r, e4c,
            Event.approval apReq]
          match appr with
          | .timeout =>
              { events := evs0
                  ++ [.error ⟨none, "Approval timeout - plan expired", none⟩]
                states := [.RUNNING, .AWAITING_APPROVAL, .ERROR]
                telemetry := t4 }
          | .decided true _ =>
              { events := evs0 ++ [.complete ⟨"approved", sid,
                  "Capacity plan approved and ready for execution", t4⟩]
                states := [.RUNNING, .AWAITING_APPROVAL, .APPROVED, .COMPLETED]
                telemetry := t4 }
          | .decided false comments =>
              { events := evs0 ++ [.complete ⟨"rejected", sid,
                  "Capacity plan rejected: " ++ comments, t4⟩]
                states := [.RUNNING, .AWAITING_APPROVAL, .REJECTED, .COMPLETED]
                telemetry := t4 }

/-! ### Event classifiers used by the theorems -/

/-- Classification of one yielded event by kind (and, for status updates,
by agent id). -/
inductive Tag where
  | start (agent_id : String)
  | done (agent_id : String)
  | otherUpdate
  | approval
  | complete
  | error
deriving DecidableEq

/-- Tag of an event. -/
def eventTag : Event → Tag
  | .update u =>
      match u.status with
      | .RUNNING => .start u.agent_id
      | .COMPLETED => .done u.agent_id
      | _ => .otherUpdate
  | .approval _ => .approval
  | .complete _ => .complete
  | .error _ => .error

/-- Whether an event is a stage-complete update. -/
def isStageComplete (e : Event) : Bool :=
  match e with
  | .update u =>
      match u.status with
      | .COMPLETED => true
      | _ => false
  | _ => false

/-- Whether an event is a `HumanApprovalRequest`. -/
def isApprovalEvent (e : Event) : Bool :=
  match e with
  | .approval _ => true
  | _ => false

/-- Whether an event is a terminal `workflow_complete` dict. -/
def isCompleteEvent (e : Event) : Bool :=
  match e with
  | .complete _ => true
  | _ => false

/-- Whether an event is an error dict. -/
def isErrorEvent (e : Event) : Bool :=
  match e with
  | .error _ => true
  | _ => false

/-- Whether a string contains another, via Python `find`. -/
def strContains (hay sub : String) : Bool := 0 ≤ pyFind hay.data sub.data 0

/-! ### WebSocket connection hub (`websocket/handler.py`) -/

/-- Duplicate-free-list insertion, modelling Python `set.add`. -/
def setAdd (c : Nat) (l : List Nat) : List Nat :=
  if c ∈ l then l else l ++ [c]

/-- Removal, modelling Python `set.discard`. -/
def setDiscard (c : Nat) (l : List Nat) : List Nat := l.filter (· ≠ c)

/-- State of `WebSocketManager` (`handler.py` 32-38): per-session subscriber
sets and the global connection set; connections are numbered. -/
structure WebSocketManager where
  connections : List (String × List Nat) := []
  all_connections : List Nat := []
deriving DecidableEq

/-- Method `WebSocketManager.connect` (`handler.py` 40-56): add to the
global set and, when a session id is given, to that session's set. -/
def WebSocketManager.connect (m : WebSocketManager) (ws : Nat)
    (session_id : Option String) : WebSocketManager :=
  let all := setAdd ws m.all_connections
  match session_id with
  | none => { m with all_connections := all }
  | some s =>
      let cur := (dictGet s m.connections).getD []
      { connections := dictInsert s (setAdd ws cur) m.connections
        all_connections := all }

/-- Method `WebSocketManager.disconnect` (`handler.py` 58-72): discard from
the global set; only when a session id is supplied, also discard from that
session's set and delete the session entry if it became empty. -/
def WebSocketManager.disconnect (m : WebSocketManager) (ws : Nat)
    (session_id : Option String) : WebSocketManager :=
  let all := setDiscard ws m.all_connections
  match session_id with
  | none => { m with all_connections := all }
  | some s =>
      match dictGet s m.connections with
      | none => { m with all_connections := all }
      | some cur =>
          let cur2 := setDiscard ws cur
          if cur2 = [] then
            { connections := m.connections.filter (fun p => p.1 ≠ s)
              all_connections := all }
          else
            { connections := dictInsert s cur2 m.connections
              all_connections := all }

/-- Method `WebSocketManager._send_to_connections` (`handler.py` 99-117):
attempt delivery to every connection of the snapshot, swallowing failures;
afterwards call `self.disconnect(conn)` — with no session id — for each
failed one. `live` lists the connections whose `send_text` succeeds.
Returns the new state, the delivered list and the attempted list. -/
def WebSocketManager.sendToConnections (m : WebSocketManager)
    (conns : List Nat) (live : List Nat) :
    WebSocketManager × List Nat × List Nat :=
  if conns = [] then (m, [], [])
  else
    let delivered := conns.filter (· ∈ live)
    let disconnected := conns.filter (fun c => ¬ c ∈ live)
    (disconnected.foldl (fun st c => st.disconnect c none) m,
     delivered, conns)

/-- Method `WebSocketManager.send_to_session` (`handler.py` 74-85): snapshot
the session's subscriber set (empty when the session is unknown) and hand it
to `_send_to_connections`. -/
def WebSocketManager.send_to_session (m : WebSocketManager)
    (session_id : String) (live : List Nat) :
    WebSocketManager × List Nat × List Nat :=
  m.sendToConnections ((dictGet session_id m.connections).getD []) live

/-! ### Session registry and endpoints (`main.py`) -/

/-- Object state established by `CapacityPlanningWorkflow.__init__`
(`workflow.py` 101-123). -/
structure CapacityPlanningWorkflow where
  demo_mode : Bool
  session_id : String
  state : WorkflowState
  telemetry : TelemetryMetrics
  approvalSlot : ApprovalSlot
deriving DecidableEq

/-- Constructor `CapacityPlanningWorkflow(demo_mode, session_id)`
(`workflow.py` 101-123); `freshId` is the `uuid.uuid4()` drawn when no
session id is supplied. -/
def CapacityPlanningWorkflow.init (demo_mode : Bool)
    (session_id : Option String) (freshId : String) :
    CapacityPlanningWorkflow :=
  let sid := session_id.getD freshId
  { demo_mode := demo_mode, session_id := sid
    state := .INITIALIZED, telemetry := TelemetryMetrics.init sid
    approvalSlot := {} }

/-- Module-level registries of `main.py` (lines 33-36): `active_workflows`
and `workflow_requests`. -/
structure AppState where
  active_workflows : List (String × CapacityPlanningWorkflow) := []
  workflow_requests : List (String × WorkflowRequest) := []
deriving DecidableEq

/-- Body schema `StartWorkflowRequest` (`main.py` 116-121). -/
structure StartWorkflowRequest where
  date_from : PyDate
  date_to : PyDate
  hub : String := "Seattle"
  demo_mode : Bool := true
deriving DecidableEq

/-- Response schema `StartWorkflowResponse` (`main.py` 124-129). -/
structure StartWorkflowResponse where
  session_id : String
  status : String
  message : String
  websocket_url : String
deriving DecidableEq

/-- FastAPI `HTTPException` payload. -/
structure HTTPError where
  status_code : Nat
  detail : String
deriving DecidableEq

/-- Endpoint `POST /api/workflow/start` (`main.py` 132-171): construct a
workflow, register it and the request under its session id, schedule the
background run, and answer with the session id; the body raises no
`HTTPException` and performs no validation beyond the field types. -/
def start_workflow (st : AppState) (request : StartWorkflowRequest)
    (freshId : String) :
    Except HTTPError (StartWorkflowResponse × AppState) :=
  let workflow := CapacityPlanningWorkflow.init request.demo_mode none freshId
  let sid := workflow.session_id
  let workflow_request : WorkflowRequest :=
    { date_from := request.date_from, date_to := request.date_to
      hub := request.hub }
  .ok ({ session_id := sid, status := "started"
         message := "Workflow started. Connect to WebSocket for real-time updates."
         websocket_url := "/ws/" ++ sid },
       { active_workflows := dictInsert sid workflow st.active_workflows
         workflow_requests := dictInsert sid workflow_request st.workflow_requests })

/-- The `"reject"` branch of the WebSocket endpoint (`main.py` 349-363):
when both the workflow and the original request are registered for the
session, build a new `CapacityPlanningWorkflow` with the same session id,
overwrite the registry entry, and spawn `run_workflow_background` on the
new workflow with the stored original request. Returns the new registry
state and, when the re-run happened, the new workflow with the request it
will be run on. -/
def handleRejectMessage (st : AppState) (session_id : String) :
    AppState × Option (CapacityPlanningWorkflow × WorkflowRequest) :=
  match dictGet session_id st.active_workflows,
        dictGet session_id st.workflow_requests with
  | some workflow, some original_request =>
      let new_workflow := CapacityPlanningWorkflow.init workflow.demo_mode
        (some session_id) session_id
      ({ active_workflows := dictInsert session_id new_workflow st.active_workflows
         workflow_requests := st.workflow_requests },
       some (new_workflow, original_request))
  | _, _ => (st, none)

/-! ### Helper lemmas -/

/-- Rounding an integer-valued rational is the identity. -/
theorem pyRound_intCast (n : ℤ) : pyRound (n : ℚ) = n := by
  simp [pyRound, Rat.num_intCast, Rat.den_intCast, Int.fdiv_one]

/-- Unfolding of `round6`. -/
theorem round6_eq (x : ℚ) :
    round6 x = (pyRound (x * 1000000) : ℚ) / 1000000 := rfl

/-- Evaluation rule for `calculate_cost` when the scaled cost is an exact
integer number of micro-dollars. -/
theorem calculate_cost_eval (i o : Int) (v : ℤ)
    (h : (((i : ℚ)) / 1000000 * gpt5_mini_input_cost_per_million
        + ((o : ℚ)) / 1000000 * gpt5_mini_output_cost_per_million) * 1000000
        = (v : ℚ)) :
    calculate_cost i o = (v : ℚ) / 1000000 := by
  show round6 _ = _
  rw [round6_eq, h, pyRound_intCast]

/-- Looking up the just-inserted key returns the new value. -/
theorem dictGet_dictInsert {β : Type} (k : String) (v : β)
    (l : List (String × β)) : dictGet k (dictInsert k v l) = some v := by
  induction l with
  | nil => simp [dictInsert, dictGet]
  | cons hd tl ih =>
      by_cases h : hd.1 = k
      · simp [dictInsert, dictGet, h]
      · simp [dictInsert, dictGet, h, ih]

/-- Looking up a different key is unaffected by `dictInsert`. -/
theorem dictGet_dictInsert_ne {β : Type} (k k2 : String) (v : β)
    (l : List (String × β)) (hne : k2 ≠ k) :
    dictGet k2 (dictInsert k v l) = dictGet k2 l := by
  induction l with
  | nil => simp [dictInsert, dictGet, Ne.symm hne]
  | cons hd tl ih =>
      by_cases h : hd.1 = k
      · subst h
        simp [dictInsert, dictGet, Ne.symm hne]
      · simp only [dictInsert, if_neg h]
        by_cases h2 : hd.1 = k2
        · simp [dictGet, h2]
        · simp [dictGet, h2, ih]

/-- Overwriting a present key keeps the length. -/
theorem dictInsert_length_of_mem {β : Type} (k : String) (v : β)
    (l : List (String × β)) (h : (dictGet k l).isSome) :
    (dictInsert k v l).length = l.length := by
  induction l with
  | nil => simp [dictGet] at h
  | cons hd tl ih =>
      by_cases hk : hd.1 = k
      · simp [dictInsert, hk]
      · simp [dictGet, hk] at h
        simp [dictInsert, hk, ih h]

/-- Inserting an absent key appends the pair at the end. -/
theorem dictInsert_of_not_mem {β : Type} (k : String) (v : β)
    (l : List (String × β)) (h : dictGet k l = none) :
    dictInsert k v l = l ++ [(k, v)] := by
  induction l with
  | nil => simp [dictInsert]
  | cons hd tl ih =>
      by_cases hk : hd.1 = k
      · simp [dictGet, hk] at h
      · simp [dictGet, hk] at h
        simp [dictInsert, hk, ih h]

/-- Lookup distributes over append. -/
theorem dictGet_append {β : Type} (k : String) (l1 l2 : List (String × β)) :
    dictGet k (l1 ++ l2)
      = match dictGet k l1 with
        | some v => some v
        | none => dictGet k l2 := by
  induction l1 with
  | nil => simp [dictGet]
  | cons hd tl ih =>
      by_cases hk : hd.1 = k
      · simp [dictGet, hk]
      · simp [dictGet, hk, ih]

/-- The running totals after folding a batch of per-stage metrics over any
starting aggregate are the starting totals plus the componentwise sums. -/
theorem foldl_add_totals (l : List (String × AgentMetrics))
    (t : TelemetryMetrics) :
    ((l.foldl (fun t2 q => t2.add_agent_metrics q.1 q.2) t).total_input_tokens
        = t.total_input_tokens + (l.map (fun q => q.2.input_tokens)).sum)
    ∧ ((l.foldl (fun t2 q => t2.add_agent_metrics q.1 q.2) t).total_output_tokens
        = t.total_output_tokens + (l.map (fun q => q.2.output_tokens)).sum)
    ∧ ((l.foldl (fun t2 q => t2.add_agent_metrics q.1 q.2) t).total_cost_usd
        = t.total_cost_usd + (l.map (fun q => q.2.cost_usd)).sum)
    ∧ ((l.foldl (fun t2 q => t2.add_agent_metrics q.1 q.2) t).total_duration_ms
        = t.total_duration_ms + (l.map (fun q => q.2.duration_ms)).sum)
    ∧ ((l.foldl (fun t2 q => t2.add_agent_metrics q.1 q.2) t).agents_completed
        = t.agents_completed + l.length) := by
  induction l generalizing t with
  | nil => simp
  | cons hd tl ih =>
      have h := ih (t.add_agent_metrics hd.1 hd.2)
      simp only [List.foldl_cons, List.map_cons, List.sum_cons, List.length_cons]
      refine ⟨?_, ?_, ?_, ?_, ?_⟩
      · rw [h.1]; simp [TelemetryMetrics.add_agent_metrics]; ring
      · rw [h.2.1]; simp [TelemetryMetrics.add_agent_metrics]; ring
      · rw [h.2.2.1]; simp [TelemetryMetrics.add_agent_metrics]; ring
      · rw [h.2.2.2.1]; simp [TelemetryMetrics.add_agent_metrics]; ring
      · rw [h.2.2.2.2]; simp [TelemetryMetrics.add_agent_metrics]; ring

/-- Folding a batch whose stage ids are pairwise distinct and absent from
the accumulator appends the batch to the per-stage map. -/
theorem foldl_add_agent_metrics_map (l : List (String × AgentMetrics))
    (t : TelemetryMetrics)
    (hdist : (l.map Prod.fst).Pairwise (· ≠ ·))
    (hdisj : ∀ q ∈ l, dictGet q.1 t.agent_metrics = none) :
    (l.foldl (fun t2 q => t2.add_agent_metrics q.1 q.2) t).agent_metrics
      = t.agent_metrics ++ l := by
  induction l generalizing t with
  | nil => simp
  | cons hd tl ih =>
      simp only [List.foldl_cons]
      have hmap : (t.add_agent_metrics hd.1 hd.2).agent_metrics
          = t.agent_metrics ++ [hd] := by
        show dictInsert hd.1 hd.2 t.agent_metrics = _
        exact dictInsert_of_not_mem _ _ _ (hdisj hd (by simp))
      rw [List.map_cons, List.pairwise_cons] at hdist
      have hdist2 : (tl.map Prod.fst).Pairwise (· ≠ ·) := hdist.2
      have hhd : ∀ q ∈ tl, hd.1 ≠ q.1 := fun q hq =>
        hdist.1 q.1 (List.mem_map_of_mem Prod.fst hq)
      have hdisj2 : ∀ q ∈ tl,
          dictGet q.1 (t.add_agent_metrics hd.1 hd.2).agent_metrics = none := by
        intro q hq
        rw [hmap, dictGet_append]
        simp [hdisj q (by simp [hq]), dictGet, hhd q hq, Ne.symm (hhd q hq)]
      rw [ih _ hdist2 hdisj2, hmap, List.append_assoc]
      simp

/-- Per-send cleanup of `_send_to_connections` never touches the
per-session subscriber map: `disconnect` is called without a session id. -/
theorem foldl_disconnect_none_connections (l : List Nat)
    (m : WebSocketManager) :
    (l.foldl (fun st c => st.disconnect c none) m).connections
      = m.connections := by
  induction l generalizing m with
  | nil => rfl
  | cons hd tl ih => rw [List.foldl_cons, ih]; rfl

/-- Propagation of the `total_tokens` invariant through a fold of stage
records. -/
theorem foldl_total_tokens (l : List (String × AgentMetrics))
    (t : TelemetryMetrics)
    (h : t.total_tokens = t.total_input_tokens + t.total_output_tokens) :
    (l.foldl (fun t2 q => t2.add_agent_metrics q.1 q.2) t).total_tokens
      = (l.foldl (fun t2 q => t2.add_agent_metrics q.1 q.2) t).total_input_tokens
        + (l.foldl (fun t2 q => t2.add_agent_metrics q.1 q.2) t).total_output_tokens := by
  induction l generalizing t with
  | nil => exact h
  | cons hd tl ih =>
      exact ih (t.add_agent_metrics hd.1 hd.2) rfl

/-! ### Claim theorems -/

/-- C4 counterexample: the data-analyst stage executed in demo mode (the
default) records `cost_usd = 0.0205` with 245 input and 1850 output tokens,
but the configured rates give `round(245/1e6*0.30 + 1850/1e6*1.25, 6) =
0.002386`, so this executed stage violates the claimed equation. -/
theorem demo_stage_cost_formula_cex :
    (demoDataAnalystMetrics 2000).cost_usd ≠ calculate_cost 245 1850 := by
  have h : calculate_cost 245 1850 = ((2386 : ℤ) : ℚ) / 1000000 :=
    calculate_cost_eval 245 1850 2386 (by
      push_cast
      norm_num [gpt5_mini_input_cost_per_million, gpt5_mini_output_cost_per_million])
  rw [h]
  norm_num [demoDataAnalystMetrics]

/-- C4 amended: the production agents' `_calculate_cost` satisfies the
spec's formula at the configured rates 0.30 and 1.25, but the demo-mode
stages (the default path) record fixed sample costs 0.0205, 0.0245, 0.0210
and 0.0390 that do not satisfy the formula for their recorded token
counts. -/
theorem stage_cost_formula :
    (∀ i o : Int, calculate_cost i o
        = specCostPerStage i o gpt5_mini_input_cost_per_million
            gpt5_mini_output_cost_per_million)
    ∧ gpt5_mini_input_cost_per_million = 3 / 10
    ∧ gpt5_mini_output_cost_per_million = 5 / 4
    ∧ (∀ dur : Int, (demoDataAnalystMetrics dur).cost_usd = 0.0205
        ∧ (demoDataAnalystMetrics dur).cost_usd ≠ calculate_cost 245 1850)
    ∧ (∀ dur : Int, (demoCapacityCalcMetrics dur).cost_usd = 0.0245
        ∧ (demoCapacityCalcMetrics dur).cost_usd ≠ calculate_cost 1900 2200)
    ∧ (∀ dur : Int, (demoDocResearcherMetrics dur).cost_usd = 0.0210
        ∧ (demoDocResearcherMetrics dur).cost_usd ≠ calculate_cost 2300 1800)
    ∧ (∀ dur : Int, (demoPlannerMetrics dur).cost_usd = 0.0390
        ∧ (demoPlannerMetrics dur).cost_usd ≠ calculate_cost 5500 3200) := by
  refine ⟨fun i o => rfl,
    by norm_num [gpt5_mini_input_cost_per_million],
    by norm_num [gpt5_mini_output_cost_per_million], ?_, ?_, ?_, ?_⟩
  · intro dur
    have h : calculate_cost 245 1850 = ((2386 : ℤ) : ℚ) / 1000000 :=
      calculate_cost_eval 245 1850 2386 (by
        push_cast
        norm_num [gpt5_mini_input_cost_per_million, gpt5_mini_output_cost_per_million])
    exact ⟨rfl, by rw [h]; norm_num [demoDataAnalystMetrics]⟩
  · intro dur
    have h : calculate_cost 1900 2200 = ((3320 : ℤ) : ℚ) / 1000000 :=
      calculate_cost_eval 1900 2200 3320 (by
        push_cast
        norm_num [gpt5_mini_input_cost_per_million, gpt5_mini_output_cost_per_million])
    exact ⟨rfl, by rw [h]; norm_num [demoCapacityCalcMetrics]⟩
  · intro dur
    have h : calculate_cost 2300 1800 = ((2940 : ℤ) : ℚ) / 1000000 :=
      calculate_cost_eval 2300 1800 2940 (by
        push_cast
        norm_num [gpt5_mini_input_cost_per_million, gpt5_mini_output_cost_per_million])
    exact ⟨rfl, by rw [h]; norm_num [demoDocResearcherMetrics]⟩
  · intro dur
    have h : calculate_cost 5500 3200 = ((5650 : ℤ) : ℚ) / 1000000 :=
      calculate_cost_eval 5500 3200 5650 (by
        push_cast
        norm_num [gpt5_mini_input_cost_per_million, gpt5_mini_output_cost_per_million])
    exact ⟨rfl, by rw [h]; norm_num [demoPlannerMetrics]⟩

/-- C5: `total_tokens = total_input_tokens + total_output_tokens` after
every update; all running totals and the completed-stage counter are
non-decreasing under non-negative per-stage metrics (for `total_tokens`,
under the invariant just named, which holds after every update and
initially); and after folding any batch of stage records with pairwise
distinct ids over a fresh aggregate, every running total is the
componentwise sum of the batch, the counter is the batch length and the
per-stage map is exactly the batch. -/
theorem telemetry_invariants :
    (∀ (t : TelemetryMetrics) (agent_id : String) (m : AgentMetrics),
      (t.add_agent_metrics agent_id m).total_tokens
        = (t.add_agent_metrics agent_id m).total_input_tokens
          + (t.add_agent_metrics agent_id m).total_output_tokens)
    ∧ (∀ (t : TelemetryMetrics) (agent_id : String) (m : AgentMetrics),
        0 ≤ m.input_tokens → 0 ≤ m.output_tokens → 0 ≤ m.duration_ms →
        0 ≤ m.cost_usd →
        t.total_input_tokens ≤ (t.add_agent_metrics agent_id m).total_input_tokens
        ∧ t.total_output_tokens ≤ (t.add_agent_metrics agent_id m).total_output_tokens
        ∧ t.total_cost_usd ≤ (t.add_agent_metrics agent_id m).total_cost_usd
        ∧ t.total_duration_ms ≤ (t.add_agent_metrics agent_id m).total_duration_ms
        ∧ t.agents_completed ≤ (t.add_agent_metrics agent_id m).agents_completed
        ∧ (t.total_tokens = t.total_input_tokens + t.total_output_tokens →
            t.total_tokens ≤ (t.add_agent_metrics agent_id m).total_tokens))
    ∧ (∀ (sid : String) (l : List (String × AgentMetrics)),
        (l.map Prod.fst).Pairwise (· ≠ ·) →
        ((l.foldl (fun t2 q => t2.add_agent_metrics q.1 q.2)
            (TelemetryMetrics.init sid)).total_input_tokens
          = (l.map (fun q => q.2.input_tokens)).sum)
        ∧ ((l.foldl (fun t2 q => t2.add_agent_metrics q.1 q.2)
            (TelemetryMetrics.init sid)).total_output_tokens
          = (l.map (fun q => q.2.output_tokens)).sum)
        ∧ ((l.foldl (fun t2 q => t2.add_agent_metrics q.1 q.2)
            (TelemetryMetrics.init sid)).total_cost_usd
          = (l.map (fun q => q.2.cost_usd)).sum)
        ∧ ((l.foldl (fun t2 q => t2.add_agent_metrics q.1 q.2)
            (TelemetryMetrics.init sid)).total_duration_ms
          = (l.map (fun q => q.2.duration_ms)).sum)
        ∧ ((l.foldl (fun t2 q => t2.add_agent_metrics q.1 q.2)
            (TelemetryMetrics.init sid)).total_tokens
          = (l.map (fun q => q.2.input_tokens)).sum
            + (l.map (fun q => q.2.output_tokens)).sum)
        ∧ ((l.foldl (fun t2 q => t2.add_agent_metrics q.1 q.2)
            (TelemetryMetrics.init sid)).agents_completed = l.length)
        ∧ ((l.foldl (fun t2 q => t2.add_agent_metrics q.1 q.2)
            (TelemetryMetrics.init sid)).agent_metrics = l)) := by
  refine ⟨?_, ?_, ?_⟩
  · intro t agent_id m
    simp [TelemetryMetrics.add_agent_metrics]
  · intro t agent_id m h1 h2 h3 h4
    refine ⟨?_, ?_, ?_, ?_, ?_, ?_⟩ <;>
      simp [TelemetryMetrics.add_agent_metrics]
    · omega
    · omega
    · linarith
    · omega
    · intro hinv
      rw [hinv]
      omega
  · intro sid l hdist
    have h := foldl_add_totals l (TelemetryMetrics.init sid)
    have hmap := foldl_add_agent_metrics_map l (TelemetryMetrics.init sid)
      hdist (fun q _ => rfl)
    have htok := foldl_total_tokens l (TelemetryMetrics.init sid) rfl
    refine ⟨?_, ?_, ?_, ?_, ?_, ?_, ?_⟩
    · simpa [TelemetryMetrics.init] using h.1
    · simpa [TelemetryMetrics.init] using h.2.1
    · simpa [TelemetryMetrics.init] using h.2.2.1
    · simpa [TelemetryMetrics.init] using h.2.2.2.1
    · rw [htok]
      rw [h.1, h.2.1]
      simp [TelemetryMetrics.init]
    · simpa [TelemetryMetrics.init] using h.2.2.2.2
    · simpa [TelemetryMetrics.init] using hmap

/-- Example metrics record used by concrete witnesses. -/
def mEx : AgentMetrics :=
  { input_tokens := 10, output_tokens := 20, duration_ms := 5
    cost_usd := 0, tool_calls := 1 }

/-- C5 witness: the batched-sum part at a concrete two-stage batch with
distinct ids, and the monotonicity part at a concrete non-negative record. -/
theorem telemetry_invariants_witness :
    (((([("a", mEx), ("b", mEx)] : List (String × AgentMetrics)).map
        Prod.fst).Pairwise (· ≠ ·))
      ∧ (([("a", mEx), ("b", mEx)] : List (String × AgentMetrics)).foldl
          (fun t2 q => t2.add_agent_metrics q.1 q.2)
          (TelemetryMetrics.init "s")).agents_completed = 2)
    ∧ ((0 : ℚ) ≤ mEx.cost_usd
      ∧ (TelemetryMetrics.init "s").total_input_tokens
          ≤ ((TelemetryMetrics.init "s").add_agent_metrics "a" mEx).total_input_tokens) := by
  refine ⟨⟨by decide, ?_⟩, ⟨by norm_num [mEx], ?_⟩⟩
  · simpa using
      (telemetry_invariants.2.2 "s" [("a", mEx), ("b", mEx)] (by decide)).2.2.2.2.2.1
  · exact (telemetry_invariants.2.1 (TelemetryMetrics.init "s") "a" mEx
      (by norm_num [mEx]) (by norm_num [mEx]) (by norm_num [mEx])
      (by norm_num [mEx])).1

/-- Five successive records under one stage id, for exercising the
overwrite path of `add_agent_metrics`. -/
def rep5 : TelemetryMetrics :=
  (List.replicate 5 (("data_analyst" : String),
      ({ input_tokens := 100 } : AgentMetrics))).foldl
    (fun t2 q => t2.add_agent_metrics q.1 q.2) (TelemetryMetrics.init "s")

/-- C10: recording an already-recorded stage id overwrites its map entry
(the map lookup yields the new record, the map length is unchanged) while
all running totals still grow by the new metrics and the completed-stage
counter still increments; hence after five records under one id the counter
is 5, exceeding `agents_total = 4`, and the running input-token total 500
exceeds the stored per-stage sum 100. -/
theorem add_agent_metrics_overwrite_behavior :
    (∀ (t : TelemetryMetrics) (agent_id : String) (m : AgentMetrics),
      (t.add_agent_metrics agent_id m).agent_metrics
          = dictInsert agent_id m t.agent_metrics
      ∧ dictGet agent_id (t.add_agent_metrics agent_id m).agent_metrics = some m
      ∧ (t.add_agent_metrics agent_id m).total_input_tokens
          = t.total_input_tokens + m.input_tokens
      ∧ (t.add_agent_metrics agent_id m).total_output_tokens
          = t.total_output_tokens + m.output_tokens
      ∧ (t.add_agent_metrics agent_id m).total_cost_usd
          = t.total_cost_usd + m.cost_usd
      ∧ (t.add_agent_metrics agent_id m).total_duration_ms
          = t.total_duration_ms + m.duration_ms
      ∧ (t.add_agent_metrics agent_id m).agents_completed
          = t.agents_completed + 1)
    ∧ (∀ (t : TelemetryMetrics) (agent_id : String) (m : AgentMetrics),
        (dictGet agent_id t.agent_metrics).isSome →
        (t.add_agent_metrics agent_id m).agent_metrics.length
          = t.agent_metrics.length)
    ∧ (rep5.agents_completed = 5
      ∧ rep5.agents_total = 4
      ∧ rep5.agents_total < rep5.agents_completed
      ∧ rep5.agent_metrics
          = [("data_analyst", ({ input_tokens := 100 } : AgentMetrics))]
      ∧ rep5.total_input_tokens = 500
      ∧ (rep5.agent_metrics.map (fun q => q.2.input_tokens)).sum = 100
      ∧ (rep5.agent_metrics.map (fun q => q.2.input_tokens)).sum
          < rep5.total_input_tokens) := by
  refine ⟨?_, ?_, ?_⟩
  · intro t agent_id m
    exact ⟨rfl, dictGet_dictInsert agent_id m t.agent_metrics,
      rfl, rfl, rfl, rfl, rfl⟩
  · intro t agent_id m h
    exact dictInsert_length_of_mem agent_id m t.agent_metrics h
  · refine ⟨by decide, by decide, by decide, by decide, by decide, by decide, by decide⟩

/-- C10 witness: the length-preservation part applied to the concrete
aggregate `rep5`, whose map already holds the stage id being re-recorded. -/
theorem add_agent_metrics_overwrite_behavior_witness :
    (dictGet "data_analyst" rep5.agent_metrics).isSome
    ∧ (rep5.add_agent_metrics "data_analyst" ({} : AgentMetrics)).agent_metrics.length
        = rep5.agent_metrics.length :=
  ⟨by decide, add_agent_metrics_overwrite_behavior.2.1 rep5 "data_analyst" {} (by decide)⟩

/-- C2 amended: delivery goes to exactly the live subscribers of the
session and failures are swallowed, but a failing subscriber is removed
from the global connection set ONLY — `_send_to_connections` calls
`disconnect` without the session id — so the session's subscriber map is
left entirely unchanged and the next `send_to_session` attempts the dead
connection again. -/
theorem send_to_session_behavior (m : WebSocketManager) (sid : String)
    (live : List Nat) :
    (m.send_to_session sid live).2.1
        = ((dictGet sid m.connections).getD []).filter (· ∈ live)
    ∧ (m.send_to_session sid live).2.2
        = (if ((dictGet sid m.connections).getD []) = [] then []
           else (dictGet sid m.connections).getD [])
    ∧ (m.send_to_session sid live).1.connections = m.connections
    ∧ ((m.send_to_session sid live).1.send_to_session sid live).2.2
        = (m.send_to_session sid live).2.2 := by
  by_cases h : (dictGet sid m.connections).getD [] = []
  · simp [WebSocketManager.send_to_session, WebSocketManager.sendToConnections, h]
  · have hconn : (m.send_to_session sid live).1.connections = m.connections := by
      simp [WebSocketManager.send_to_session, WebSocketManager.sendToConnections, h]
      exact foldl_disconnect_none_connections _ _
    refine ⟨?_, ?_, hconn, ?_⟩
    · simp [WebSocketManager.send_to_session, WebSocketManager.sendToConnections, h]
    · simp [WebSocketManager.send_to_session, WebSocketManager.sendToConnections, h]
    · calc ((m.send_to_session sid live).1.send_to_session sid live).2.2
          = ((m.send_to_session sid live).1.sendToConnections
              ((dictGet sid (m.send_to_session sid live).1.connections).getD [])
              live).2.2 := rfl
        _ = ((m.send_to_session sid live).1.sendToConnections
              ((dictGet sid m.connections).getD []) live).2.2 := by rw [hconn]
        _ = (dictGet sid m.connections).getD [] := by
              simp [WebSocketManager.sendToConnections, h]
        _ = (m.send_to_session sid live).2.2 := by
              simp [WebSocketManager.send_to_session,
                WebSocketManager.sendToConnections, h]

/-- Hub state with three subscribers of session "S" and one of "T";
connection 1 is dead (its `send_text` raises). -/
def hubCex : WebSocketManager :=
  { connections := [("S", [1, 2, 3]), ("T", [4])]
    all_connections := [1, 2, 3, 4] }

/-- C2 counterexample: after a send to "S" during which connection 1 fails,
connection 1 is still in "S"'s subscriber set (only the global set dropped
it), the message was delivered to exactly the live subscribers 2 and 3, and
the next `send_to_session` attempts the dead connection 1 again —
contradicting the claimed unregistration from the session's subscriber set
and the claim that a dead connection is never attempted twice. -/
theorem send_to_session_dead_subscriber_cex :
    dictGet "S" (hubCex.send_to_session "S" [2, 3, 4]).1.connections
        = some [1, 2, 3]
    ∧ (hubCex.send_to_session "S" [2, 3, 4]).2.1 = [2, 3]
    ∧ (hubCex.send_to_session "S" [2, 3, 4]).1.all_connections = [2, 3, 4]
    ∧ 1 ∈ ((hubCex.send_to_session "S" [2, 3, 4]).1.send_to_session
        "S" [2, 3, 4]).2.2 := by decide

/-- Session-start request whose range is inverted: `date_from` 2026-02-01 is
after `date_to` 2026-01-01. -/
def badStartRequest : StartWorkflowRequest :=
  { date_from := ⟨2026, 2, 1⟩, date_to := ⟨2026, 1, 1⟩
    hub := "Seattle", demo_mode := true }

/-- C3 counterexample: for a request with `date_from > date_to` the endpoint
still answers `"started"` with a session id and both registries hold the new
session — no 4xx rejection happens and a session IS created, contradicting
the claim. -/
theorem start_workflow_invalid_range_creates_session_cex :
    PyDate.le badStartRequest.date_from badStartRequest.date_to = false
    ∧ (start_workflow {} badStartRequest "sid-1").toOption.map
        (fun x => (x.1.session_id, x.1.status,
          (dictGet "sid-1" x.2.active_workflows).isSome,
          (dictGet "sid-1" x.2.workflow_requests).isSome))
      = some ("sid-1", "started", true, true) := by decide

/-- C3 amended: the session-start endpoint performs no date-range
validation: every request — whatever the order of `date_from` and
`date_to` — succeeds (no `HTTPException` is raised), constructs a workflow
in state `INITIALIZED`, registers it and the request under the fresh
session id, and returns that id. -/
theorem start_workflow_no_validation (st : AppState)
    (request : StartWorkflowRequest) (freshId : String) :
    (start_workflow st request freshId).toOption.isSome = true
    ∧ (start_workflow st request freshId).toOption.map (fun x => x.1.session_id)
        = some freshId
    ∧ (start_workflow st request freshId).toOption.map
        (fun x => dictGet freshId x.2.active_workflows)
        = some (some (CapacityPlanningWorkflow.init request.demo_mode none freshId))
    ∧ (start_workflow st request freshId).toOption.map
        (fun x => dictGet freshId x.2.workflow_requests)
        = some (some ⟨request.date_from, request.date_to, request.hub⟩)
    ∧ (CapacityPlanningWorkflow.init request.demo_mode none freshId).state
        = WorkflowState.INITIALIZED := by
  refine ⟨rfl, rfl, ?_, ?_, rfl⟩ <;>
    simp [start_workflow, Except.toOption, CapacityPlanningWorkflow.init,
      dictGet_dictInsert]

/-- C9: a `reject` message for a session with a registered workflow and
stored original request replaces the registry entry with a brand-new
workflow — same session id, state `INITIALIZED`, fresh telemetry, same
demo flag — spawns the background run on that new workflow with the
unaltered original request (whose run begins with stage 1,
`data_analyst`), leaves the stored request in place, and a second `reject`
does the same again. -/
theorem reject_rerun_replaces_workflow (st : AppState) (s : String)
    (wf : CapacityPlanningWorkflow) (orig : WorkflowRequest)
    (hw : dictGet s st.active_workflows = some wf)
    (hr : dictGet s st.workflow_requests = some orig) :
    (handleRejectMessage st s).2
        = some (CapacityPlanningWorkflow.init wf.demo_mode (some s) s, orig)
    ∧ dictGet s (handleRejectMessage st s).1.active_workflows
        = some (CapacityPlanningWorkflow.init wf.demo_mode (some s) s)
    ∧ (CapacityPlanningWorkflow.init wf.demo_mode (some s) s).session_id = s
    ∧ (CapacityPlanningWorkflow.init wf.demo_mode (some s) s).state
        = WorkflowState.INITIALIZED
    ∧ (CapacityPlanningWorkflow.init wf.demo_mode (some s) s).telemetry
        = TelemetryMetrics.init s
    ∧ (CapacityPlanningWorkflow.init wf.demo_mode (some s) s).demo_mode
        = wf.demo_mode
    ∧ (handleRejectMessage st s).1.workflow_requests = st.workflow_requests
    ∧ (∀ (s1 : WorkflowRequest → Except String StageResult)
        (s2 s3 : String → Except String StageResult)
        (s4 : String → String → String → Except String StageResult)
        (appr : ApprovalOutcome),
        ((runWorkflow s orig s1 s2 s3 s4 appr).events.head?.map eventTag)
          = some (.start "data_analyst"))
    ∧ (handleRejectMessage (handleRejectMessage st s).1 s).2
        = some (CapacityPlanningWorkflow.init wf.demo_mode (some s) s, orig) := by
  have h1 : dictGet s (handleRejectMessage st s).1.active_workflows
      = some (CapacityPlanningWorkflow.init wf.demo_mode (some s) s) := by
    simp [handleRejectMessage, hw, hr, dictGet_dictInsert]
  have h2 : (handleRejectMessage st s).1.workflow_requests
      = st.workflow_requests := by
    simp [handleRejectMessage, hw, hr]
  refine ⟨?_, h1, rfl, rfl, rfl, rfl, h2, ?_, ?_⟩
  · simp [handleRejectMessage, hw, hr]
  · intro s1 s2 s3 s4 appr
    cases hs1 : s1 orig with
    | error msg => simp [runWorkflow, hs1, eventTag, create_update]
    | ok d =>
      cases hs2 : s2 d.output with
      | error msg => simp [runWorkflow, hs1, hs2, eventTag, create_update]
      | ok c =>
        cases hs3 : s3 c.output with
        | error msg => simp [runWorkflow, hs1, hs2, hs3, eventTag, create_update]
        | ok r =>
          cases hs4 : s4 d.output c.output r.output with
          | error msg =>
              simp [runWorkflow, hs1, hs2, hs3, hs4, eventTag, create_update]
          | ok p =>
            cases appr with
            | timeout =>
                simp [runWorkflow, hs1, hs2, hs3, hs4, eventTag, create_update]
            | decided b cm =>
                cases b <;>
                  simp [runWorkflow, hs1, hs2, hs3, hs4, eventTag, create_update]
  · generalize (handleRejectMessage st s).1 = st2 at h1 h2
    simp [handleRejectMessage, h1, h2, hr, CapacityPlanningWorkflow.init]

/-- Registry holding one fresh session "s", for the C9 witness. -/
def stEx : AppState :=
  { active_workflows := [("s", CapacityPlanningWorkflow.init true none "s")]
    workflow_requests := [("s",
      { date_from := ⟨2026, 1, 1⟩, date_to := ⟨2026, 1, 31⟩, hub := "Seattle" })] }

/-- C9 witness: the re-run replacement at the concrete registry `stEx`. -/
theorem reject_rerun_replaces_workflow_witness :
    dictGet "s" stEx.active_workflows
        = some (CapacityPlanningWorkflow.init true none "s")
    ∧ (handleRejectMessage stEx "s").2
        = some (CapacityPlanningWorkflow.init
            (CapacityPlanningWorkflow.init true none "s").demo_mode (some "s") "s",
          { date_from := ⟨2026, 1, 1⟩, date_to := ⟨2026, 1, 31⟩, hub := "Seattle" }) :=
  ⟨by decide,
   (reject_rerun_replaces_workflow stEx "s"
      (CapacityPlanningWorkflow.init true none "s")
      { date_from := ⟨2026, 1, 1⟩, date_to := ⟨2026, 1, 31⟩, hub := "Seattle" }
      (by decide) (by decide)).1⟩

/-- Tag list of a full successful run, in emission order. -/
def protocolTags : List Tag :=
  [.start "data_analyst", .done "data_analyst",
   .start "capacity_calc", .done "capacity_calc",
   .start "doc_researcher", .done "doc_researcher",
   .start "planner", .done "planner", .approval, .complete]

/-- C1: on a successful run (all four stage calls return, the approval
signal arrives in time), the event sequence is exactly: stage-start and
stage-complete for the four stages in pipeline order `data_analyst,
capacity_calc, doc_researcher, planner`, then exactly one
`HumanApprovalRequest`, then exactly one terminal event, which is last —
so stage n+1's events never precede stage n's complete event. -/
theorem run_emits_protocol_in_order (sid : String) (request : WorkflowRequest)
    (s1 : WorkflowRequest → Except String StageResult)
    (s2 s3 : String → Except String StageResult)
    (s4 : String → String → String → Except String StageResult)
    (d c r p : StageResult) (b : Bool) (cm : String)
    (h1 : s1 request = .ok d) (h2 : s2 d.output = .ok c)
    (h3 : s3 c.output = .ok r) (h4 : s4 d.output c.output r.output = .ok p) :
    (runWorkflow sid request s1 s2 s3 s4 (.decided b cm)).events.map eventTag
        = protocolTags
    ∧ (runWorkflow sid request s1 s2 s3 s4 (.decided b cm)).events.countP
        isStageComplete = 4
    ∧ (runWorkflow sid request s1 s2 s3 s4 (.decided b cm)).events.countP
        isApprovalEvent = 1
    ∧ (runWorkflow sid request s1 s2 s3 s4 (.decided b cm)).events.countP
        isCompleteEvent = 1
    ∧ ((runWorkflow sid request s1 s2 s3 s4 (.decided b cm)).events.getLast?.map
        eventTag) = some .complete := by
  cases b <;>
    simp [runWorkflow, h1, h2, h3, h4, eventTag, create_update, protocolTags,
      isStageComplete, isApprovalEvent, isCompleteEvent, List.countP_cons,
      List.getLast?]

/-- Request used by concrete witnesses. -/
def reqEx : WorkflowRequest :=
  { date_from := ⟨2026, 1, 1⟩, date_to := ⟨2026, 1, 31⟩, hub := "Seattle" }

/-- Stage result used by concrete witnesses. -/
def stageEx : StageResult := { output := "out", metrics := {} }

/-- Always-succeeding stage-1 runner for witnesses. -/
def s1Ex : WorkflowRequest → Except String StageResult := fun _ => .ok stageEx

/-- Always-succeeding middle-stage runner for witnesses. -/
def sMidEx : String → Except String StageResult := fun _ => .ok stageEx

/-- Always-succeeding stage-4 runner for witnesses. -/
def s4Ex : String → String → String → Except String StageResult :=
  fun _ _ _ => .ok stageEx

/-- Failing stage-1 runner for the C8 witness. -/
def s1FailEx : WorkflowRequest → Except String StageResult :=
  fun _ => .error "boom"

/-- C1 witness: the protocol at a concrete successful run. -/
theorem run_emits_protocol_in_order_witness :
    s1Ex reqEx = .ok stageEx
    ∧ (runWorkflow "sess" reqEx s1Ex sMidEx sMidEx s4Ex
        (.decided true "")).events.map eventTag = protocolTags :=
  ⟨rfl, (run_emits_protocol_in_order "sess" reqEx s1Ex sMidEx sMidEx s4Ex
    stageEx stageEx stageEx stageEx true "" rfl rfl rfl rfl).1⟩

/-- C6: with the orchestrator suspended after stage 4, `approve(true, "")`
yields state `APPROVED` then `COMPLETED` and the terminal
`workflow_complete` event has status `"approved"`; `approve(false,
"needs revision")` yields `REJECTED` then `COMPLETED` with the comment
embedded in the terminal message; in both cases the terminal event carries
the session id and the final telemetry snapshot. -/
theorem approval_resume_outcomes (sid : String) (request : WorkflowRequest)
    (s1 : WorkflowRequest → Except String StageResult)
    (s2 s3 : String → Except String StageResult)
    (s4 : String → String → String → Except String StageResult)
    (d c r p : StageResult)
    (h1 : s1 request = .ok d) (h2 : s2 d.output = .ok c)
    (h3 : s3 c.output = .ok r) (h4 : s4 d.output c.output r.output = .ok p) :
    ((runWorkflow sid request s1 s2 s3 s4
        (slotOutcome (approve {} true ""))).states
      = [.RUNNING, .AWAITING_APPROVAL, .APPROVED, .COMPLETED]
    ∧ (runWorkflow sid request s1 s2 s3 s4
        (slotOutcome (approve {} true ""))).events.getLast?
      = some (.complete ⟨"approved", sid,
          "Capacity plan approved and ready for execution",
          (runWorkflow sid request s1 s2 s3 s4
            (slotOutcome (approve {} true ""))).telemetry⟩))
    ∧ ((runWorkflow sid request s1 s2 s3 s4
        (slotOutcome (approve {} false "needs revision"))).states
      = [.RUNNING, .AWAITING_APPROVAL, .REJECTED, .COMPLETED]
    ∧ (runWorkflow sid request s1 s2 s3 s4
        (slotOutcome (approve {} false "needs revision"))).events.getLast?
      = some (.complete ⟨"rejected", sid,
          "Capacity plan rejected: " ++ "needs revision",
          (runWorkflow sid request s1 s2 s3 s4
            (slotOutcome (approve {} false "needs revision"))).telemetry⟩)
    ∧ strContains ("Capacity plan rejected: " ++ "needs revision")
        "needs revision" = true) := by
  refine ⟨⟨?_, ?_⟩, ⟨?_, ?_, by decide⟩⟩ <;>
    simp [runWorkflow, h1, h2, h3, h4, approve, slotOutcome, List.getLast?]

/-- C6 witness: both resume outcomes at a concrete successful run. -/
theorem approval_resume_outcomes_witness :
    s1Ex reqEx = .ok stageEx
    ∧ (runWorkflow "sess" reqEx s1Ex sMidEx sMidEx s4Ex
        (slotOutcome (approve {} true ""))).states
      = [.RUNNING, .AWAITING_APPROVAL, .APPROVED, .COMPLETED]
    ∧ (runWorkflow "sess" reqEx s1Ex sMidEx sMidEx s4Ex
        (slotOutcome (approve {} false "needs revision"))).states
      = [.RUNNING, .AWAITING_APPROVAL, .REJECTED, .COMPLETED] :=
  ⟨rfl,
   (approval_resume_outcomes "sess" reqEx s1Ex sMidEx sMidEx s4Ex
     stageEx stageEx stageEx stageEx rfl rfl rfl rfl).1.1,
   (approval_resume_outcomes "sess" reqEx s1Ex sMidEx sMidEx s4Ex
     stageEx stageEx stageEx stageEx rfl rfl rfl rfl).2.1⟩

/-- C7: when no approve/reject signal arrives before the wait expires
(bound 300 seconds), the state becomes `ERROR` via `AWAITING_APPROVAL`,
exactly one error event — the approval-timeout "plan expired" message — is
emitted as the last event of the sequence, and no `workflow_complete`
event is ever emitted for the run. -/
theorem approval_timeout_terminal (sid : String) (request : WorkflowRequest)
    (s1 : WorkflowRequest → Except String StageResult)
    (s2 s3 : String → Except String StageResult)
    (s4 : String → String → String → Except String StageResult)
    (d c r p : StageResult)
    (h1 : s1 request = .ok d) (h2 : s2 d.output = .ok c)
    (h3 : s3 c.output = .ok r) (h4 : s4 d.output c.output r.output = .ok p) :
    (runWorkflow sid request s1 s2 s3 s4 (slotOutcome {})).states
        = [.RUNNING, .AWAITING_APPROVAL, .ERROR]
    ∧ (runWorkflow sid request s1 s2 s3 s4 (slotOutcome {})).events.countP
        isErrorEvent = 1
    ∧ (runWorkflow sid request s1 s2 s3 s4 (slotOutcome {})).events.getLast?
        = some (.error ⟨none, "Approval timeout - plan expired", none⟩)
    ∧ (runWorkflow sid request s1 s2 s3 s4 (slotOutcome {})).events.countP
        isCompleteEvent = 0
    ∧ (runWorkflow sid request s1 s2 s3 s4 (slotOutcome {})).events.countP
        isApprovalEvent = 1
    ∧ approvalTimeoutSeconds = 300 := by
  refine ⟨?_, ?_, ?_, ?_, ?_, rfl⟩ <;>
    simp [runWorkflow, h1, h2, h3, h4, slotOutcome, isErrorEvent,
      isCompleteEvent, isApprovalEvent, List.countP_cons, List.getLast?]

/-- C7 witness: the timeout outcome at a concrete run. -/
theorem approval_timeout_terminal_witness :
    s1Ex reqEx = .ok stageEx
    ∧ (runWorkflow "sess" reqEx s1Ex sMidEx sMidEx s4Ex
        (slotOutcome {})).states = [.RUNNING, .AWAITING_APPROVAL, .ERROR] :=
  ⟨rfl, (approval_timeout_terminal "sess" reqEx s1Ex sMidEx sMidEx s4Ex
    stageEx stageEx stageEx stageEx rfl rfl rfl rfl).1⟩

/-- C8: when a stage call raises, the run moves straight from `RUNNING` to
`ERROR` and ends with exactly one error event carrying the failure's
message and the telemetry accumulated so far; no later stage starts, no
approval request and no `workflow_complete` event is emitted, and the
failed stage is not retried (its start tag appears once). -/
theorem stage_failure_aborts (sid : String) (request : WorkflowRequest)
    (s1 : WorkflowRequest → Except String StageResult)
    (s2 s3 : String → Except String StageResult)
    (s4 : String → String → String → Except String StageResult)
    (appr : ApprovalOutcome) :
    (∀ msg, s1 request = .error msg →
      (runWorkflow sid request s1 s2 s3 s4 appr).states = [.RUNNING, .ERROR]
      ∧ (runWorkflow sid request s1 s2 s3 s4 appr).events.map eventTag
          = [.start "data_analyst", .error]
      ∧ (runWorkflow sid request s1 s2 s3 s4 appr).events.getLast?
          = some (.error ⟨some sid, msg, some (TelemetryMetrics.init sid)⟩))
    ∧ (∀ d msg, s1 request = .ok d → s2 d.output = .error msg →
      (runWorkflow sid request s1 s2 s3 s4 appr).states = [.RUNNING, .ERROR]
      ∧ (runWorkflow sid request s1 s2 s3 s4 appr).events.map eventTag
          = [.start "data_analyst", .done "data_analyst",
             .start "capacity_calc", .error]
      ∧ (runWorkflow sid request s1 s2 s3 s4 appr).events.getLast?
          = some (.error ⟨some sid, msg,
              some ((TelemetryMetrics.init sid).add_agent_metrics
                "data_analyst" d.metrics)⟩))
    ∧ (∀ d c msg, s1 request = .ok d → s2 d.output = .ok c →
        s3 c.output = .error msg →
      (runWorkflow sid request s1 s2 s3 s4 appr).states = [.RUNNING, .ERROR]
      ∧ (runWorkflow sid request s1 s2 s3 s4 appr).events.map eventTag
          = [.start "data_analyst", .done "data_analyst",
             .start "capacity_calc", .done "capacity_calc",
             .start "doc_researcher", .error]
      ∧ (runWorkflow sid request s1 s2 s3 s4 appr).events.getLast?
          = some (.error ⟨some sid, msg,
              some (((TelemetryMetrics.init sid).add_agent_metrics
                  "data_analyst" d.metrics).add_agent_metrics
                "capacity_calc" c.metrics)⟩))
    ∧ (∀ d c r msg, s1 request = .ok d → s2 d.output = .ok c →
        s3 c.output = .ok r → s4 d.output c.output r.output = .error msg →
      (runWorkflow sid request s1 s2 s3 s4 appr).states = [.RUNNING, .ERROR]
      ∧ (runWorkflow sid request s1 s2 s3 s4 appr).events.map eventTag
          = [.start "data_analyst", .done "data_analyst",
             .start "capacity_calc", .done "capacity_calc",
             .start "doc_researcher", .done "doc_researcher",
             .start "planner", .error]
      ∧ (runWorkflow sid request s1 s2 s3 s4 appr).events.getLast?
          = some (.error ⟨some sid, msg,
              some ((((TelemetryMetrics.init sid).add_agent_metrics
                  "data_analyst" d.metrics).add_agent_metrics
                "capacity_calc" c.metrics).add_agent_metrics
                "doc_researcher" r.metrics)⟩)) := by
  refine ⟨?_, ?_, ?_, ?_⟩
  · intro msg h1
    refine ⟨?_, ?_, ?_⟩ <;>
      simp [runWorkflow, h1, eventTag, create_update, List.getLast?]
  · intro d msg h1 h2
    refine ⟨?_, ?_, ?_⟩ <;>
      simp [runWorkflow, h1, h2, eventTag, create_update, List.getLast?]
  · intro d c msg h1 h2 h3
    refine ⟨?_, ?_, ?_⟩ <;>
      simp [runWorkflow, h1, h2, h3, eventTag, create_update, List.getLast?]
  · intro d c r msg h1 h2 h3 h4
    refine ⟨?_, ?_, ?_⟩ <;>
      simp [runWorkflow, h1, h2, h3, h4, eventTag, create_update, List.getLast?]

/-- C8 witness: stage 1 failing with message "boom" at a concrete run. -/
theorem stage_failure_aborts_witness :
    s1FailEx reqEx = .error "boom"
    ∧ (runWorkflow "sess" reqEx s1FailEx sMidEx sMidEx s4Ex
        ApprovalOutcome.timeout).states = [.RUNNING, .ERROR] :=
  ⟨rfl, ((stage_failure_aborts "sess" reqEx s1FailEx sMidEx sMidEx s4Ex
    ApprovalOutcome.timeout).1 "boom" rfl).1⟩

end Zava
